import Mathlib

/-!
Shallow embedding of the TopTube API routes.

The repository has two server routes (the categories endpoint and the
videos endpoint, both in `src/app/api/categories/route.ts`) and a client
component (`src/unnamed/part_000`).  Upstream HTTP traffic is modelled by
an `Upstream` structure of response functions: each outbound request the
route code can issue is represented by a request descriptor holding the
query parameters the code puts into `URLSearchParams`, and the handler is
a pure function of the environment variable, the upstream oracle and the
request's own query parameters.  Every handler additionally returns the
list of upstream requests it issued, in order, so that statements such as
"no upstream call is made" or "the search is retried exactly once" are
expressible.  The `fetchedAt` field of the real response is a wall-clock
timestamp and is outside this pure model; no other field is dropped.
-/

namespace TopTube

/-- `fetch` marks a response `ok` when its status is in the 2xx range. -/
def isOk (status : Nat) : Bool := 200 ≤ status && status < 300

/-- Value of a run of ASCII digits, most significant first
(the value a JavaScript decimal-integer literal denotes). -/
def natOfDigits (ds : List Char) : Nat :=
  ds.foldl (fun n c => 10 * n + (c.toNat - '0'.toNat)) 0

/-- Model of JavaScript `Number(s)` restricted to the string shapes that
occur in YouTube count fields: non-empty strings of ASCII digits,
optionally preceded by `-`.  Any other string is treated as `NaN`
(`none`); the `Number.isFinite` guard in `toNumber` then turns it into 0.
Fractional, exponent, hex and whitespace-padded literals do not occur in
`viewCount`/`likeCount`/`commentCount` payloads and are likewise sent to
`none`. -/
def jsIntOfString? (s : String) : Option Int :=
  match s.data with
  | [] => none
  | '-' :: ds =>
    if ds ≠ [] ∧ ds.all Char.isDigit then some (-(natOfDigits ds : Int)) else none
  | ds =>
    if ds ≠ [] ∧ ds.all Char.isDigit then some ((natOfDigits ds : Int)) else none

/-- `toNumber` from the videos route: `undefined` or `""` (falsy) gives 0,
a finite parse gives its value, a `NaN`/non-finite parse gives 0. -/
def toNumber (value : Option String) : Int :=
  match value with
  | none => 0
  | some s => if s = "" then 0 else (jsIntOfString? s).getD 0

/-- Maximal leading run of ASCII digits of a character list, paired with
the remainder (the behaviour of a greedy `\d+` at the current position;
backtracking into the run can never help because the character after a
shorter run is again a digit, not the required unit letter). -/
def takeDigits : List Char → List Char × List Char
  | [] => ([], [])
  | c :: cs =>
    if c.isDigit then
      let p := takeDigits cs
      (c :: p.1, p.2)
    else ([], c :: cs)

/-- One optional component `(?:(\d+)X)?` of the duration regex: if a
non-empty digit run immediately followed by the unit letter `u` starts
here, capture it and consume it; otherwise capture nothing and consume
nothing. -/
def duraComponent (u : Char) (s : List Char) : Option Nat × List Char :=
  match takeDigits s with
  | ([], _) => (none, s)
  | (d :: ds, rest) =>
    match rest with
    | c :: rest' => if c = u then (some (natOfDigits (d :: ds)), rest') else (none, s)
    | [] => (none, s)

/-- Remainder of the list after the first occurrence of the substring
`"PT"`, or `none` when there is none.  Because every group of the duration
regex is optional, `/PT(?:(\d+)H)?(?:(\d+)M)?(?:(\d+)S)?/` matches a string
exactly when it contains `"PT"`, and it matches at the first occurrence. -/
def afterPT : List Char → Option (List Char)
  | 'P' :: 'T' :: rest => some rest
  | _ :: rest => afterPT rest
  | [] => none

/-- Result of `/PT(?:(\d+)H)?(?:(\d+)M)?(?:(\d+)S)?/.exec(s)`: `none` when
the pattern does not match (no `"PT"` in `s`), otherwise the three optional
captured groups, each already converted to a number. -/
def execDurationRegex? (s : String) : Option (Option Nat × Option Nat × Option Nat) :=
  match afterPT s.data with
  | none => none
  | some r0 =>
    let ph := duraComponent 'H' r0
    let pm := duraComponent 'M' ph.2
    let ps := duraComponent 'S' pm.2
    some (ph.1, pm.1, ps.1)

/-- `parseIsoDuration` from the videos route: falsy input gives 0, a
failed regex match gives 0, otherwise `hours*3600 + minutes*60 + seconds`
with each absent group counted as 0 (`Number(match[i] ?? 0)`). -/
def parseIsoDuration (duration : Option String) : Nat :=
  match duration with
  | none => 0
  | some s =>
    if s = "" then 0
    else
      match execDurationRegex? s with
      | none => 0
      | some g => g.1.getD 0 * 3600 + g.2.1.getD 0 * 60 + g.2.2.getD 0

/-- `String(n).padStart(2, "0")`. -/
def padTwo (n : Nat) : String :=
  let s := toString n
  if s.length < 2 then "0" ++ s else s

/-- `formatDuration` from the client component: falsy input or a failed
regex match gives `""`; otherwise `H:MM:SS` when the hours group value is
positive and `M:SS` otherwise, minutes and seconds zero-padded to two
digits (hours and, in the no-hours form, minutes are not padded). -/
def formatDuration (isoDuration : Option String) : String :=
  match isoDuration with
  | none => ""
  | some s =>
    if s = "" then ""
    else
      match execDurationRegex? s with
      | none => ""
      | some g =>
        let hours := g.1.getD 0
        let minutes := g.2.1.getD 0
        let seconds := g.2.2.getD 0
        if hours > 0 then
          toString hours ++ ":" ++ padTwo minutes ++ ":" ++ padTwo seconds
        else
          toString minutes ++ ":" ++ padTwo seconds

/-! ## Data model of the videos route (`VideoItem` and friends) -/

/-- One entry of `snippet.thumbnails` (`{url, width?, height?}`). -/
structure Thumb where
  url : String
  width : Option Nat
  height : Option Nat
deriving DecidableEq, Repr

/-- `thumbnails` of a video snippet (`medium?`, `high?`). -/
structure Thumbnails where
  medium : Option Thumb
  high : Option Thumb
deriving DecidableEq, Repr

/-- Optional fields of a video `snippet`. -/
structure Snippet where
  title : Option String
  channelTitle : Option String
  channelId : Option String
  publishedAt : Option String
  thumbnails : Option Thumbnails
deriving DecidableEq, Repr

/-- `contentDetails` of a video (`duration?`). -/
structure ContentDetails where
  duration : Option String
deriving DecidableEq, Repr

/-- `statistics` of a video; each count is an optional numeric string. -/
structure Statistics where
  viewCount : Option String
  likeCount : Option String
  commentCount : Option String
deriving DecidableEq, Repr

/-- The `VideoItem` type of the videos route.  `statistics` is a required
field in the source type, so the `a.statistics ?? {}` in the comparator
is the identity and is not modelled separately. -/
structure VideoItem where
  id : String
  snippet : Option Snippet
  contentDetails : Option ContentDetails
  statistics : Statistics
deriving DecidableEq, Repr

/-- One item of a `/channels` response, with the two optional chains
`snippet?.thumbnails?.medium?.url` and `snippet?.thumbnails?.default?.url`
flattened to one optional string each (no claim distinguishes the levels
of the chain, only whether a URL is present). -/
structure ChannelItem where
  id : Option String
  mediumUrl : Option String
  defaultUrl : Option String
deriving DecidableEq, Repr

/-- `MAX_RESULTS` of the videos route. -/
def MAX_RESULTS : Nat := 24

/-! ## Upstream request descriptors and responses -/

/-- Parameters of the primary `/videos?chart=mostPopular` call. -/
structure PrimaryReq where
  part : String
  chart : String
  maxResults : Nat
  regionCode : Option String
  videoCategoryId : Option String
deriving DecidableEq, Repr

/-- Parameters of a `/search` call (`typ` models the `type` parameter). -/
structure SearchReq where
  part : String
  typ : String
  order : String
  videoCategoryId : String
  maxResults : Nat
  safeSearch : String
  regionCode : Option String
deriving DecidableEq, Repr

/-- Parameters of the hydrating `/videos?id=...` call. -/
structure ByIdsReq where
  part : String
  ids : List String
  maxResults : Nat
deriving DecidableEq, Repr

/-- Parameters of the batched `/channels` call. -/
structure ChannelsReq where
  part : String
  ids : List String
  maxResults : Nat
deriving DecidableEq, Repr

/-- A `/videos` response: its status, its body as text (used verbatim in
error details) and its parsed `items` field (`none` models a body whose
`items` is not an array). -/
structure VideosResp where
  status : Nat
  bodyText : String
  items : Option (List VideoItem)

/-- A `/search` response; each entry of `items` models `item.id?.videoId`. -/
structure SearchResp where
  status : Nat
  bodyText : String
  items : Option (List (Option String))

/-- A `/channels` response. -/
structure ChannelsResp where
  status : Nat
  items : Option (List ChannelItem)

/-- The upstream API as an oracle: a fixed response for every request the
route can issue. -/
structure Upstream where
  videosList : PrimaryReq → VideosResp
  search : SearchReq → SearchResp
  videosById : ByIdsReq → VideosResp
  channels : ChannelsReq → ChannelsResp

/-- One upstream request issued by the videos handler, in issue order. -/
inductive ReqEvent where
  | primary (r : PrimaryReq)
  | search (r : SearchReq)
  | byIds (r : ByIdsReq)
  | channels (r : ChannelsReq)
deriving DecidableEq, Repr

/-! ## The videos handler -/

/-- Query parameters of a request to the videos endpoint, each `none` when
absent from the URL. -/
structure QueryParams where
  region : Option String
  category : Option String
  sort : Option String
  shorts : Option String
deriving DecidableEq, Repr

/-- Output shape of one item of a successful videos response. -/
structure OutItem where
  id : String
  title : String
  channelTitle : String
  channelThumbnail : String
  publishedAt : String
  duration : String
  thumbnails : Thumbnails
  statistics : Statistics
deriving DecidableEq, Repr

/-- Body of a successful videos response (`fetchedAt`, a wall-clock
timestamp, is outside the pure model). -/
structure SuccessBody where
  items : List OutItem
  region : String
  category : String
  sort : String
  shorts : String
deriving DecidableEq, Repr

/-- Result of the videos handler: an error response
`{error, details?}` with a status, or a 200 success body. -/
inductive VResult where
  | err (status : Nat) (error : String) (details : Option String)
  | success (body : SuccessBody)
deriving DecidableEq, Repr

/-- The primary listing request built by the handler: `regionCode` is set
unless the region is the `"WORLD"` sentinel, `videoCategoryId` unless the
category is `"all"`. -/
def primaryReqOf (region category : String) : PrimaryReq :=
  { part := "snippet,statistics,contentDetails"
    chart := "mostPopular"
    maxResults := MAX_RESULTS
    regionCode := if region ≠ "WORLD" then some region else none
    videoCategoryId := if category ≠ "all" then some category else none }

/-- `buildSearchParams` of the fallback path: `regionCode` is set exactly
when `withRegion` is true. -/
def searchReqOf (category region : String) (withRegion : Bool) : SearchReq :=
  { part := "snippet"
    typ := "video"
    order := "viewCount"
    videoCategoryId := category
    maxResults := MAX_RESULTS
    safeSearch := "none"
    regionCode := if withRegion then some region else none }

/-- Video identifiers extracted from a search response:
`items.map(i => i.id?.videoId).filter(Boolean)` — kept entries are the
defined, non-empty strings; a non-array `items` gives `[]`. -/
def extractIds (items : Option (List (Option String))) : List String :=
  ((items.getD []).filterMap id).filter (fun s => decide (s ≠ ""))

/-- `fetchByIds` of the videos route: an empty id list issues no request
and yields `[]`; otherwise one `/videos?id=...` call whose items are the
result, with any non-success status or non-array `items` giving `[]`. -/
def fetchByIds (up : Upstream) (ids : List String) : List VideoItem × List ReqEvent :=
  if ids.isEmpty then ([], [])
  else
    let req : ByIdsReq :=
      { part := "snippet,statistics,contentDetails", ids := ids, maxResults := MAX_RESULTS }
    (if isOk (up.videosById req).status then (up.videosById req).items.getD [] else [],
     [ReqEvent.byIds req])

/-- The retrieval stage of the videos handler: primary call, then either
its items, the search fallback (`404` and a specific category), or an
error carrying the upstream status and body text.  In the fallback, the
second (region-free) search is issued exactly when the first yields no
identifiers, and a non-success second search leaves the identifier list
empty. -/
def resolveWorkingSet (up : Upstream) (region category : String) :
    Except (Nat × String) (List VideoItem) × List ReqEvent :=
  let primReq := primaryReqOf region category
  let response := up.videosList primReq
  if isOk response.status then
    (Except.ok (response.items.getD []), [ReqEvent.primary primReq])
  else if response.status = 404 ∧ category ≠ "all" then
    let req1 := searchReqOf category region true
    let res1 := up.search req1
    if isOk res1.status = false then
      (Except.error (res1.status, res1.bodyText), [ReqEvent.primary primReq, ReqEvent.search req1])
    else
      let ids1 := extractIds res1.items
      let req2 := searchReqOf category region false
      let ids :=
        if ids1.isEmpty then
          if isOk (up.search req2).status then extractIds (up.search req2).items else ids1
        else ids1
      let tr2 : List ReqEvent := if ids1.isEmpty then [ReqEvent.search req2] else []
      let hyd := fetchByIds up ids
      (Except.ok hyd.1, [ReqEvent.primary primReq, ReqEvent.search req1] ++ tr2 ++ hyd.2)
  else
    (Except.error (response.status, response.bodyText), [ReqEvent.primary primReq])

/-- First-occurrence deduplication, the order-preserving behaviour of
`Array.from(new Set(xs))`. -/
def dedupFirst : List String → List String
  | [] => []
  | x :: xs => x :: (dedupFirst xs).filter (fun y => decide (y ≠ x))

/-- The distinct channel identifiers of the working set:
`Array.from(new Set(items.map(i => i.snippet?.channelId).filter(Boolean)))`. -/
def channelIdsOf (items : List VideoItem) : List String :=
  dedupFirst ((items.filterMap (fun it => it.snippet.bind (fun s => s.channelId))).filter
    (fun s => decide (s ≠ "")))

/-- The thumbnail chosen for one channel item:
`snippet?.thumbnails?.medium?.url || snippet?.thumbnails?.default?.url || ""`. -/
def chThumbVal (ch : ChannelItem) : String :=
  let m := ch.mediumUrl.getD ""
  if m ≠ "" then m else ch.defaultUrl.getD ""

/-- The `reduce` building `channelThumbnails`: skip items with a falsy id,
record the chosen thumbnail when it is non-empty.  Entries are prepended,
so a lookup that takes the first hit sees the last assignment, matching
object-key overwrite semantics. -/
def buildThumbMap (chans : List ChannelItem) : List (String × String) :=
  chans.foldl
    (fun acc ch =>
      match ch.id with
      | none => acc
      | some cid =>
        if cid = "" then acc
        else if chThumbVal ch ≠ "" then (cid, chThumbVal ch) :: acc else acc)
    []

/-- `channelThumbnails[cid] ?? ""` — first hit of the prepend-built map. -/
def mapLookup (m : List (String × String)) (cid : String) : String :=
  match m.find? (fun p => decide (p.1 = cid)) with
  | some p => p.2
  | none => ""

/-- The channel-thumbnail enrichment stage: no call when the working set
has no channel identifiers; otherwise one batched `/channels` call
(`maxResults` 50), whose failure leaves the mapping empty. -/
def enrichChannels (up : Upstream) (items : List VideoItem) :
    List (String × String) × List ReqEvent :=
  let channelIds := channelIdsOf items
  if channelIds.isEmpty then ([], [])
  else
    let req : ChannelsReq := { part := "snippet", ids := channelIds, maxResults := 50 }
    (if isOk (up.channels req).status then buildThumbMap ((up.channels req).items.getD []) else [],
     [ReqEvent.channels req])

/-- The statistic selected by the sort key: the `switch` of the comparator
(`likes`, `comments`, and `views` together with the `default` arm). -/
def getValue (sort : String) (stats : Statistics) : Int :=
  if sort = "likes" then toNumber stats.likeCount
  else if sort = "comments" then toNumber stats.commentCount
  else toNumber stats.viewCount

/-- Sort key of a video item, `getValue` applied to its statistics. -/
def videoKey (sort : String) (it : VideoItem) : Int := getValue sort it.statistics

/-- Insert `x` in front of the first element whose key is not larger —
the insertion step of a stable non-increasing sort. -/
def insertDesc (key : α → Int) (x : α) : List α → List α
  | [] => [x]
  | y :: ys => if key y ≤ key x then x :: y :: ys else y :: insertDesc key x ys

/-- Stable non-increasing insertion sort.  This models
`[...items].sort((a, b) => getValue(b) - getValue(a))`: ECMAScript
`Array.prototype.sort` is stable, and the stable non-increasing
rearrangement of a list is unique, namely the one this sort produces. -/
def sortDesc (key : α → Int) : List α → List α
  | [] => []
  | x :: xs => insertDesc key x (sortDesc key xs)

/-- The duration-seconds of a video item used by the shorts filter. -/
def durationSecondsOf (it : VideoItem) : Nat :=
  parseIsoDuration (it.contentDetails.bind (fun cd => cd.duration))

/-- The ranking-and-filtering stage of the videos handler: stable
non-increasing sort by the selected statistic, then, exactly when `shorts`
is `"exclude"`, removal of items whose parsed duration is below 60
seconds. -/
def rankAndFilter (sort shorts : String) (items : List VideoItem) : List VideoItem :=
  let sorted := sortDesc (videoKey sort) items
  if shorts = "exclude" then
    sorted.filter (fun it => decide (60 ≤ durationSecondsOf it))
  else sorted

/-- Empty `thumbnails` object (`item.snippet?.thumbnails ?? {}`). -/
def emptyThumbnails : Thumbnails := { medium := none, high := none }

/-- The response-shaping `map` of the videos handler. -/
def toOutItem (thumbs : List (String × String)) (it : VideoItem) : OutItem :=
  { id := it.id
    title := (it.snippet.bind (fun s => s.title)).getD ""
    channelTitle := (it.snippet.bind (fun s => s.channelTitle)).getD ""
    channelThumbnail :=
      match it.snippet.bind (fun s => s.channelId) with
      | some cid => if cid ≠ "" then mapLookup thumbs cid else ""
      | none => ""
    publishedAt := (it.snippet.bind (fun s => s.publishedAt)).getD ""
    duration := (it.contentDetails.bind (fun cd => cd.duration)).getD ""
    thumbnails := (it.snippet.bind (fun s => s.thumbnails)).getD emptyThumbnails
    statistics := it.statistics }

/-- The videos endpoint `GET` handler.  The guard on the credential is the
JavaScript falsy test (`undefined` or `""`); the defaulting of the four
query parameters is the `??` chain of the source.  The `if (!data)` guard
of the source is unreachable (every path reaching it has assigned `data`)
and has no counterpart here. -/
def GETvideos (apiKey : Option String) (up : Upstream) (q : QueryParams) :
    VResult × List ReqEvent :=
  if apiKey.getD "" = "" then
    (VResult.err 500 "Missing YOUTUBE_API_KEY in environment." none, [])
  else
    let region := q.region.getD "KR"
    let category := q.category.getD "all"
    let sort := q.sort.getD "views"
    let shorts := q.shorts.getD "include"
    let res := resolveWorkingSet up region category
    match res.1 with
    | Except.error e => (VResult.err e.1 "YouTube API error" (some e.2), res.2)
    | Except.ok items =>
      let enr := enrichChannels up items
      (VResult.success
        { items := (rankAndFilter sort shorts items).map (toOutItem enr.1)
          region := region, category := category, sort := sort, shorts := shorts },
       res.2 ++ enr.2)

/-! ## The categories handler -/

/-- One item of a `/videoCategories` response. -/
structure CatItem where
  id : Option String
  title : Option String
deriving DecidableEq, Repr

/-- A `/videoCategories` response. -/
structure CatResp where
  status : Nat
  bodyText : String
  items : Option (List CatItem)

/-- A `{value, label}` category option. -/
structure CatOption where
  value : String
  label : String
deriving DecidableEq, Repr

/-- Result of the categories handler. -/
inductive CatResult where
  | err (status : Nat) (error : String) (details : Option String)
  | success (categories : List CatOption)
deriving DecidableEq, Repr

/-- The categories endpoint `GET` handler; the boolean records whether the
upstream call was issued. -/
def GETcategories (apiKey : Option String) (up : CatResp) : CatResult × Bool :=
  if apiKey.getD "" = "" then
    (CatResult.err 500 "Missing YOUTUBE_API_KEY in environment." none, false)
  else if isOk up.status = false then
    (CatResult.err up.status "YouTube API error" (some up.bodyText), true)
  else
    let items := up.items.getD []
    (CatResult.success
      ((items.map (fun it => CatOption.mk (it.id.getD "") (it.title.getD ""))).filter
        (fun c => c.value ≠ "" && c.label ≠ "")),
     true)

/-! ## Lemmas about the stable non-increasing sort -/

theorem mem_insertDesc {key : α → Int} {x a : α} :
    ∀ {l : List α}, a ∈ insertDesc key x l ↔ a = x ∨ a ∈ l := by
  intro l
  induction l with
  | nil => simp [insertDesc]
  | cons y ys ih =>
    by_cases h : key y ≤ key x
    · simp [insertDesc, h]
    · simp only [insertDesc, if_neg h, List.mem_cons, ih]
      tauto

theorem mem_sortDesc {key : α → Int} {a : α} :
    ∀ {l : List α}, a ∈ sortDesc key l ↔ a ∈ l := by
  intro l
  induction l with
  | nil => simp [sortDesc]
  | cons x xs ih => simp [sortDesc, mem_insertDesc, ih]

theorem pairwise_insertDesc {key : α → Int} {x : α} {l : List α}
    (h : l.Pairwise (fun a b => key b ≤ key a)) :
    (insertDesc key x l).Pairwise (fun a b => key b ≤ key a) := by
  induction l with
  | nil => simp [insertDesc]
  | cons y ys ih =>
    rcases List.pairwise_cons.mp h with ⟨hy, hys⟩
    by_cases hc : key y ≤ key x
    · rw [insertDesc, if_pos hc]
      refine List.pairwise_cons.mpr ⟨?_, h⟩
      intro z hz
      rcases List.mem_cons.mp hz with rfl | hz
      · exact hc
      · exact le_trans (hy z hz) hc
    · rw [insertDesc, if_neg hc]
      refine List.pairwise_cons.mpr ⟨?_, ih hys⟩
      intro z hz
      rcases mem_insertDesc.mp hz with rfl | hz
      · exact le_of_lt (lt_of_not_le hc)
      · exact hy z hz

theorem pairwise_sortDesc (key : α → Int) :
    ∀ l : List α, (sortDesc key l).Pairwise (fun a b => key b ≤ key a) := by
  intro l
  induction l with
  | nil => simp [sortDesc]
  | cons x xs ih => exact pairwise_insertDesc ih

theorem filter_insertDesc_of_eq {key : α → Int} {x : α} {v : Int} (hx : key x = v) :
    ∀ l : List α,
      (insertDesc key x l).filter (fun y => decide (key y = v)) =
        x :: l.filter (fun y => decide (key y = v)) := by
  intro l
  induction l with
  | nil => simp [insertDesc, hx]
  | cons y ys ih =>
    by_cases hc : key y ≤ key x
    · rw [insertDesc, if_pos hc]
      simp [List.filter_cons, hx]
    · have hyv : ¬ key y = v := by
        intro hv
        exact hc (le_of_eq (hv.trans hx.symm))
      rw [insertDesc, if_neg hc]
      simp [List.filter_cons, hyv, ih, hx]

theorem filter_insertDesc_of_ne {key : α → Int} {x : α} {v : Int} (hx : ¬ key x = v) :
    ∀ l : List α,
      (insertDesc key x l).filter (fun y => decide (key y = v)) =
        l.filter (fun y => decide (key y = v)) := by
  intro l
  induction l with
  | nil => simp [insertDesc, hx]
  | cons y ys ih =>
    by_cases hc : key y ≤ key x
    · simp [insertDesc, hc, List.filter_cons, hx]
    · simp [insertDesc, hc, List.filter_cons, ih]

theorem sortDesc_stable (key : α → Int) (v : Int) :
    ∀ l : List α,
      (sortDesc key l).filter (fun y => decide (key y = v)) =
        l.filter (fun y => decide (key y = v)) := by
  intro l
  induction l with
  | nil => simp [sortDesc]
  | cons x xs ih =>
    by_cases hx : key x = v
    · rw [sortDesc, filter_insertDesc_of_eq hx, ih, List.filter_cons]
      simp [hx]
    · rw [sortDesc, filter_insertDesc_of_ne hx, ih, List.filter_cons]
      simp [hx]

theorem insertDesc_of_all_le {key : α → Int} {x : α} {l : List α}
    (h : ∀ z ∈ l, key z ≤ key x) : insertDesc key x l = x :: l := by
  cases l with
  | nil => rfl
  | cons y ys => simp [insertDesc, h y (List.mem_cons_self y ys)]

theorem filter_insertDesc_comm {key : α → Int} (p : α → Bool) {x : α} :
    ∀ {l : List α}, l.Pairwise (fun a b => key b ≤ key a) →
      (insertDesc key x l).filter p =
        if p x then insertDesc key x (l.filter p) else l.filter p := by
  intro l
  induction l with
  | nil =>
    intro _
    by_cases hp : p x <;> simp [insertDesc, hp]
  | cons y ys ih =>
    intro hs
    rcases List.pairwise_cons.mp hs with ⟨hy, hys⟩
    by_cases hc : key y ≤ key x
    · rw [insertDesc, if_pos hc]
      by_cases hp : p x
      · have hall : ∀ z ∈ (y :: ys).filter p, key z ≤ key x := by
          intro z hz
          rcases List.mem_cons.mp (List.mem_of_mem_filter hz) with rfl | hz'
          · exact hc
          · exact le_trans (hy z hz') hc
        rw [if_pos hp, insertDesc_of_all_le hall, List.filter_cons, if_pos hp]
      · rw [if_neg hp, List.filter_cons, if_neg hp]
    · rw [insertDesc, if_neg hc]
      by_cases hpy : p y
      · rw [List.filter_cons, if_pos hpy, ih hys, List.filter_cons, if_pos hpy]
        by_cases hp : p x
        · rw [if_pos hp, if_pos hp, insertDesc, if_neg hc]
        · rw [if_neg hp, if_neg hp]
      · rw [List.filter_cons, if_neg hpy, ih hys, List.filter_cons, if_neg hpy]

theorem sortDesc_filter_comm (key : α → Int) (p : α → Bool) :
    ∀ l : List α, (sortDesc key l).filter p = sortDesc key (l.filter p) := by
  intro l
  induction l with
  | nil => simp [sortDesc]
  | cons x xs ih =>
    rw [sortDesc, filter_insertDesc_comm p (pairwise_sortDesc key xs), ih, List.filter_cons]
    by_cases hp : p x
    · rw [if_pos hp, if_pos hp, sortDesc]
    · rw [if_neg hp, if_neg hp]

/-! ## Lemmas about deduplication and identifier extraction -/

theorem mem_dedupFirst {a : String} : ∀ {l : List String}, a ∈ dedupFirst l ↔ a ∈ l := by
  intro l
  induction l with
  | nil => simp [dedupFirst]
  | cons x xs ih =>
    simp only [dedupFirst, List.mem_cons, List.mem_filter, ih, decide_eq_true_eq]
    constructor
    · rintro (rfl | ⟨hmem, _⟩)
      · exact Or.inl rfl
      · exact Or.inr hmem
    · rintro (rfl | hmem)
      · exact Or.inl rfl
      · by_cases hax : a = x
        · exact Or.inl hax
        · exact Or.inr ⟨hmem, hax⟩

theorem nodup_dedupFirst : ∀ l : List String, (dedupFirst l).Nodup := by
  intro l
  induction l with
  | nil => simp [dedupFirst]
  | cons x xs ih =>
    rw [dedupFirst, List.nodup_cons]
    refine ⟨?_, ih.filter _⟩
    intro hx
    have := (List.mem_filter.mp hx).2
    simp at this

theorem extractIds_length_le (o : Option (List (Option String))) :
    (extractIds o).length ≤ (o.getD []).length :=
  le_trans (List.length_filter_le _ _) (List.length_filterMap_le _ _)

theorem mem_channelIdsOf {c : String} {items : List VideoItem} :
    c ∈ channelIdsOf items ↔
      (∃ it ∈ items, it.snippet.bind (fun s => s.channelId) = some c) ∧ c ≠ "" := by
  rw [channelIdsOf, mem_dedupFirst, List.mem_filter, List.mem_filterMap]
  simp only [decide_eq_true_eq]

theorem toOutItem_emptyMap_thumbnail (it : VideoItem) :
    (toOutItem [] it).channelThumbnail = "" := by
  rw [toOutItem]
  cases h : it.snippet.bind (fun s => s.channelId) with
  | none => simp [h]
  | some cid => by_cases hc : cid = "" <;> simp [h, hc, mapLookup]

/-! ## Claim theorems: ranking, filtering, duration parsing, credentials -/

/-- C3: for every working set and every sort key, the ranked sequence is
non-increasing in the statistic selected by the sort key (`views`,
`likes`, `comments`, with any other key falling back to `viewCount`),
missing or non-numeric values count as zero, and records with equal
statistic values keep the relative order of the upstream sequence
(the filter by each key value is unchanged by the sort). -/
theorem ranking_sorted_stable_spec (sortKey : String) (items : List VideoItem) :
    (sortDesc (videoKey sortKey) items).Pairwise
        (fun a b => videoKey sortKey b ≤ videoKey sortKey a) ∧
    (∀ shorts : String, (rankAndFilter sortKey shorts items).Pairwise
        (fun a b => videoKey sortKey b ≤ videoKey sortKey a)) ∧
    (∀ v : Int,
        (sortDesc (videoKey sortKey) items).filter (fun it => decide (videoKey sortKey it = v)) =
          items.filter (fun it => decide (videoKey sortKey it = v))) ∧
    (∀ st : Statistics,
        getValue "views" st = toNumber st.viewCount ∧
        getValue "likes" st = toNumber st.likeCount ∧
        getValue "comments" st = toNumber st.commentCount) ∧
    (∀ s : String, s ≠ "likes" → s ≠ "comments" →
        ∀ st : Statistics, getValue s st = toNumber st.viewCount) ∧
    toNumber none = 0 ∧
    (∀ s : String, jsIntOfString? s = none → toNumber (some s) = 0) := by
  refine ⟨pairwise_sortDesc _ items, ?_, fun v => sortDesc_stable (videoKey sortKey) v items,
    ?_, ?_, rfl, ?_⟩
  · intro shorts
    rw [rankAndFilter]
    by_cases hs : shorts = "exclude"
    · rw [if_pos hs]
      exact List.Pairwise.sublist (List.filter_sublist _) (pairwise_sortDesc _ items)
    · rw [if_neg hs]
      exact pairwise_sortDesc _ items
  · intro st
    refine ⟨?_, rfl, ?_⟩ <;> rfl
  · intro s h1 h2 st
    rw [getValue, if_neg h1, if_neg h2]
  · intro s h
    by_cases hs : s = ""
    · simp [toNumber, hs]
    · simp [toNumber, hs, h]

/-- Witness for C3 at a concrete unrecognized sort key and concrete
statistics. -/
theorem ranking_sorted_stable_spec_witness :
    getValue "latest" ⟨some "7", some "9", some "11"⟩ = toNumber (some "7") :=
  (ranking_sorted_stable_spec "views" []).2.2.2.2.1 "latest" (by decide) (by decide)
    ⟨some "7", some "9", some "11"⟩

/-- C4: with `shorts = "exclude"` the returned list contains exactly the
records of the working set whose parsed duration is at least 60 seconds
(every record under 60 seconds is removed), and with `shorts = "include"`
nothing is removed: the result is exactly the ranked working set. -/
theorem shorts_filter_spec (sortKey : String) (items : List VideoItem) :
    (∀ it : VideoItem,
        it ∈ rankAndFilter sortKey "exclude" items ↔
          it ∈ items ∧ 60 ≤ durationSecondsOf it) ∧
    (∀ it : VideoItem, it ∈ items → durationSecondsOf it < 60 →
        it ∉ rankAndFilter sortKey "exclude" items) ∧
    rankAndFilter sortKey "include" items = sortDesc (videoKey sortKey) items ∧
    (∀ it : VideoItem, it ∈ rankAndFilter sortKey "include" items ↔ it ∈ items) := by
  have hmem : ∀ it : VideoItem,
      it ∈ rankAndFilter sortKey "exclude" items ↔
        it ∈ items ∧ 60 ≤ durationSecondsOf it := by
    intro it
    rw [rankAndFilter, if_pos rfl, List.mem_filter, mem_sortDesc, decide_eq_true_eq]
  have hinc : rankAndFilter sortKey "include" items = sortDesc (videoKey sortKey) items := by
    rw [rankAndFilter, if_neg (by decide)]
  refine ⟨hmem, ?_, hinc, ?_⟩
  · intro it hit hdur hmem'
    exact absurd ((hmem it).mp hmem').2 (not_le.mpr hdur)
  · intro it
    rw [hinc, mem_sortDesc]

/-- Witness for C4: a 30-second record present in the working set is not
in the `exclude` result. -/
theorem shorts_filter_spec_witness :
    VideoItem.mk "s" none (some ⟨some "PT30S"⟩) ⟨none, none, none⟩ ∉
      rankAndFilter "views" "exclude" [VideoItem.mk "s" none (some ⟨some "PT30S"⟩) ⟨none, none, none⟩] :=
  (shorts_filter_spec "views" [VideoItem.mk "s" none (some ⟨some "PT30S"⟩) ⟨none, none, none⟩]).2.1
    _ (List.mem_singleton_self _) (by decide)

/-- C9: ranking then filtering out shorts equals filtering first and then
ranking; more generally the stable descending sort commutes with any
filter. -/
theorem rank_filter_commute_spec (sortKey : String) (items : List VideoItem) :
    rankAndFilter sortKey "exclude" items =
      sortDesc (videoKey sortKey)
        (items.filter (fun it => decide (60 ≤ durationSecondsOf it))) ∧
    (∀ p : VideoItem → Bool,
        (sortDesc (videoKey sortKey) items).filter p =
          sortDesc (videoKey sortKey) (items.filter p)) := by
  constructor
  · rw [rankAndFilter, if_pos rfl]
    exact sortDesc_filter_comm _ _ items
  · intro p
    exact sortDesc_filter_comm _ p items

/-- Counterexample to C5: `"PT2Mxx"` and `"PTabc"` are not well-formed
ISO-8601 durations, yet the former parses to 120 seconds with display
string `"2:00"` and the latter displays as `"0:00"` — a malformed input
does not always yield zero seconds and an empty display string. -/
theorem duration_malformed_counterexample :
    parseIsoDuration (some "PT2Mxx") = 120 ∧
    parseIsoDuration (some "PT2Mxx") ≠ 0 ∧
    formatDuration (some "PT2Mxx") = "2:00" ∧
    formatDuration (some "PT2Mxx") ≠ "" ∧
    formatDuration (some "PTabc") = "0:00" ∧
    formatDuration (some "PTabc") ≠ "" := by
  refine ⟨by decide, by decide, by decide, by decide, by decide, by decide⟩

/-- C5 as amended: the documented example durations parse and format as
claimed, absent input and the empty string give zero seconds and an empty
display string, absent components count as zero, and the display format is
`H:MM:SS` when hours are positive and `M:SS` otherwise; an input on which
the duration pattern finds no match yields zero seconds and an empty
display string, while a malformed input that the pattern still matches is
interpreted by its matched components. -/
theorem duration_parser_amended :
    parseIsoDuration (some "PT1H2M3S") = 3723 ∧ formatDuration (some "PT1H2M3S") = "1:02:03" ∧
    parseIsoDuration (some "PT5M9S") = 309 ∧ formatDuration (some "PT5M9S") = "5:09" ∧
    parseIsoDuration none = 0 ∧ formatDuration none = "" ∧
    parseIsoDuration (some "") = 0 ∧ formatDuration (some "") = "" ∧
    (∀ s : String, execDurationRegex? s = none →
        parseIsoDuration (some s) = 0 ∧ formatDuration (some s) = "") ∧
    (∀ (s : String) (g : Option Nat × Option Nat × Option Nat),
        execDurationRegex? s = some g →
          parseIsoDuration (some s) = g.1.getD 0 * 3600 + g.2.1.getD 0 * 60 + g.2.2.getD 0 ∧
          formatDuration (some s) =
            (if g.1.getD 0 > 0 then
               toString (g.1.getD 0) ++ ":" ++ padTwo (g.2.1.getD 0) ++ ":" ++
                 padTwo (g.2.2.getD 0)
             else toString (g.2.1.getD 0) ++ ":" ++ padTwo (g.2.2.getD 0))) := by
  refine ⟨by decide, by decide, by decide, by decide, rfl, rfl, by decide, by decide, ?_, ?_⟩
  · intro s h
    by_cases hs : s = "" <;> constructor <;> simp [parseIsoDuration, formatDuration, hs, h]
  · intro s g h
    by_cases hs : s = ""
    · subst hs
      have hnone : execDurationRegex? "" = none := rfl
      rw [hnone] at h
      cases h
    · constructor <;> simp [parseIsoDuration, formatDuration, hs, h]

/-- Witness for C5 (amended): a duration string with no `PT` pattern
yields zero seconds and an empty display string. -/
theorem duration_parser_amended_witness :
    parseIsoDuration (some "1:02:03") = 0 ∧ formatDuration (some "1:02:03") = "" :=
  duration_parser_amended.2.2.2.2.2.2.2.2.1 "1:02:03" (by decide)

/-- C8: with the credential absent (unset, or set to the falsy empty
string) both endpoints return a 500 response whose `error` field names the
missing credential, and neither issues an upstream call. -/
theorem missing_credential_spec (up : Upstream) (q : QueryParams) (upc : CatResp) :
    GETvideos none up q =
      (VResult.err 500 "Missing YOUTUBE_API_KEY in environment." none, []) ∧
    GETvideos (some "") up q =
      (VResult.err 500 "Missing YOUTUBE_API_KEY in environment." none, []) ∧
    GETcategories none upc =
      (CatResult.err 500 "Missing YOUTUBE_API_KEY in environment." none, false) ∧
    GETcategories (some "") upc =
      (CatResult.err 500 "Missing YOUTUBE_API_KEY in environment." none, false) :=
  ⟨rfl, rfl, rfl, rfl⟩

/-! ## Unfolding lemmas for the handler flow -/

/-- The identifier list the fallback path hands to hydration: the
region-scoped search's identifiers, or, when those are empty, the
region-free search's identifiers (left empty when the region-free search
fails). -/
def fallbackIds (up : Upstream) (region category : String) : List String :=
  let ids1 := extractIds (up.search (searchReqOf category region true)).items
  if ids1.isEmpty then
    if isOk (up.search (searchReqOf category region false)).status then
      extractIds (up.search (searchReqOf category region false)).items
    else ids1
  else ids1

theorem resolveWorkingSet_primary_ok {up : Upstream} {region category : String}
    (hok : isOk (up.videosList (primaryReqOf region category)).status = true) :
    resolveWorkingSet up region category =
      (Except.ok ((up.videosList (primaryReqOf region category)).items.getD []),
       [ReqEvent.primary (primaryReqOf region category)]) := by
  rw [resolveWorkingSet]
  simp only [hok, if_true]

theorem resolveWorkingSet_err {up : Upstream} {region category : String}
    (hnok : isOk (up.videosList (primaryReqOf region category)).status = false)
    (hnf : ¬((up.videosList (primaryReqOf region category)).status = 404 ∧ category ≠ "all")) :
    resolveWorkingSet up region category =
      (Except.error ((up.videosList (primaryReqOf region category)).status,
                     (up.videosList (primaryReqOf region category)).bodyText),
       [ReqEvent.primary (primaryReqOf region category)]) := by
  rw [resolveWorkingSet]
  simp only [hnok, Bool.false_eq_true, if_false]
  rw [if_neg hnf]

theorem resolveWorkingSet_fallback {up : Upstream} {region category : String}
    (h404 : (up.videosList (primaryReqOf region category)).status = 404)
    (hcat : category ≠ "all")
    (hok1 : isOk (up.search (searchReqOf category region true)).status = true) :
    resolveWorkingSet up region category =
      (Except.ok (fetchByIds up (fallbackIds up region category)).1,
       [ReqEvent.primary (primaryReqOf region category),
        ReqEvent.search (searchReqOf category region true)] ++
         (if (extractIds (up.search (searchReqOf category region true)).items).isEmpty then
            [ReqEvent.search (searchReqOf category region false)]
          else []) ++
         (fetchByIds up (fallbackIds up region category)).2) := by
  rw [resolveWorkingSet]
  simp only [h404, show isOk 404 = false from rfl, Bool.false_eq_true, if_false]
  rw [if_pos ⟨trivial, hcat⟩]
  simp only [hok1, Bool.true_eq_false, if_false, fallbackIds]

theorem GETvideos_ok_unfold {key : String} {up : Upstream}
    {region category sortKey shorts : String} {items : List VideoItem} {tr : List ReqEvent}
    (hkey : key ≠ "")
    (hres : resolveWorkingSet up region category = (Except.ok items, tr)) :
    GETvideos (some key) up ⟨some region, some category, some sortKey, some shorts⟩ =
      (VResult.success
        { items := (rankAndFilter sortKey shorts items).map (toOutItem (enrichChannels up items).1)
          region := region, category := category, sort := sortKey, shorts := shorts },
       tr ++ (enrichChannels up items).2) := by
  rw [GETvideos]
  simp only [Option.getD_some]
  rw [if_neg hkey]
  simp only [hres]

theorem GETvideos_err_unfold {key : String} {up : Upstream}
    {region category sortKey shorts : String} {st : Nat} {msg : String} {tr : List ReqEvent}
    (hkey : key ≠ "")
    (hres : resolveWorkingSet up region category = (Except.error (st, msg), tr)) :
    GETvideos (some key) up ⟨some region, some category, some sortKey, some shorts⟩ =
      (VResult.err st "YouTube API error" (some msg), tr) := by
  rw [GETvideos]
  simp only [Option.getD_some]
  rw [if_neg hkey]
  simp only [hres]

theorem enrichChannels_fail {up : Upstream} {items : List VideoItem}
    (hch : ∀ r : ChannelsReq, isOk (up.channels r).status = false) :
    (enrichChannels up items).1 = [] := by
  rw [enrichChannels]
  by_cases h : (channelIdsOf items).isEmpty
  · simp only [h, if_true]
  · simp only [h, if_false, Bool.false_eq_true, hch]

theorem rankAndFilter_nil (sortKey shorts : String) : rankAndFilter sortKey shorts [] = [] := by
  rw [rankAndFilter]
  by_cases h : shorts = "exclude" <;> simp [h, sortDesc]

/-! ## Claim theorems: the retrieval flow -/

/-- C2: the fallback is reachable only from a 404 with a specific
category; any other non-success primary status — including a 404 with
category `"all"` — returns the upstream status code and body text verbatim
as the error detail, with no further upstream call. -/
theorem error_propagation_spec (key region category sortKey shorts : String) (up : Upstream)
    (hkey : key ≠ "")
    (hnok : isOk (up.videosList (primaryReqOf region category)).status = false)
    (hnf : ¬((up.videosList (primaryReqOf region category)).status = 404 ∧ category ≠ "all")) :
    GETvideos (some key) up ⟨some region, some category, some sortKey, some shorts⟩ =
      (VResult.err (up.videosList (primaryReqOf region category)).status "YouTube API error"
         (some (up.videosList (primaryReqOf region category)).bodyText),
       [ReqEvent.primary (primaryReqOf region category)]) :=
  GETvideos_err_unfold hkey (resolveWorkingSet_err hnok hnf)

/-- Upstream oracle for the C2 witness: the primary listing call answers
404 while every other endpoint would succeed. -/
def upW2 : Upstream :=
  { videosList := fun _ => { status := 404, bodyText := "listing not found", items := none }
    search := fun _ => { status := 200, bodyText := "", items := some [] }
    videosById := fun _ => { status := 200, bodyText := "", items := some [] }
    channels := fun _ => { status := 200, items := some [] } }

/-- Witness for C2: a 404 primary response with category `"all"` is
propagated verbatim and triggers no fallback call. -/
theorem error_propagation_spec_witness :
    GETvideos (some "k") upW2 ⟨some "KR", some "all", some "views", some "include"⟩ =
      (VResult.err 404 "YouTube API error" (some "listing not found"),
       [ReqEvent.primary (primaryReqOf "KR" "all")]) :=
  error_propagation_spec "k" "KR" "all" "views" "include" upW2 (by decide) (by decide) (by decide)

/-- C1: on a 404 primary status with a specific category, the handler
issues a search scoped to the category and region, ordered by view count
with page size 24; when that search yields no identifiers it repeats the
same search exactly once without the region scope; the collected
identifiers (at most the page size, given an upstream that honours
`maxResults`) are hydrated through a second videos-by-id call, and the
hydrated records become the working set of the response. -/
theorem fallback_procedure_spec (key region category sortKey shorts : String) (up : Upstream)
    (hkey : key ≠ "") (hcat : category ≠ "all")
    (h404 : (up.videosList (primaryReqOf region category)).status = 404)
    (hok1 : isOk (up.search (searchReqOf category region true)).status = true)
    (hbound : ∀ r : SearchReq, ((up.search r).items.getD []).length ≤ r.maxResults) :
    searchReqOf category region true =
      { part := "snippet", typ := "video", order := "viewCount", videoCategoryId := category
        maxResults := 24, safeSearch := "none", regionCode := some region } ∧
    searchReqOf category region false =
      { searchReqOf category region true with regionCode := none } ∧
    resolveWorkingSet up region category =
      (Except.ok (fetchByIds up (fallbackIds up region category)).1,
       [ReqEvent.primary (primaryReqOf region category),
        ReqEvent.search (searchReqOf category region true)] ++
         (if (extractIds (up.search (searchReqOf category region true)).items).isEmpty then
            [ReqEvent.search (searchReqOf category region false)]
          else []) ++
         (fetchByIds up (fallbackIds up region category)).2) ∧
    (fallbackIds up region category).length ≤ MAX_RESULTS ∧
    GETvideos (some key) up ⟨some region, some category, some sortKey, some shorts⟩ =
      (VResult.success
        { items :=
            (rankAndFilter sortKey shorts (fetchByIds up (fallbackIds up region category)).1).map
              (toOutItem (enrichChannels up (fetchByIds up (fallbackIds up region category)).1).1)
          region := region, category := category, sort := sortKey, shorts := shorts },
       ([ReqEvent.primary (primaryReqOf region category),
         ReqEvent.search (searchReqOf category region true)] ++
          (if (extractIds (up.search (searchReqOf category region true)).items).isEmpty then
             [ReqEvent.search (searchReqOf category region false)]
           else []) ++
          (fetchByIds up (fallbackIds up region category)).2) ++
        (enrichChannels up (fetchByIds up (fallbackIds up region category)).1).2) := by
  refine ⟨rfl, rfl, resolveWorkingSet_fallback h404 hcat hok1, ?_,
    GETvideos_ok_unfold hkey (resolveWorkingSet_fallback h404 hcat hok1)⟩
  simp only [fallbackIds]
  by_cases h1 : (extractIds (up.search (searchReqOf category region true)).items).isEmpty
  · rw [if_pos h1]
    by_cases h2 : isOk (up.search (searchReqOf category region false)).status = true
    · rw [if_pos h2]
      exact le_trans (extractIds_length_le _) (hbound (searchReqOf category region false))
    · rw [if_neg h2]
      exact le_trans (extractIds_length_le _) (hbound (searchReqOf category region true))
  · rw [if_neg h1]
    exact le_trans (extractIds_length_le _) (hbound (searchReqOf category region true))

/-- Upstream oracle for the C1 witness: primary 404, a region-scoped
search with no results, a region-free search that fills the page, and a
hydration call echoing the requested identifiers. -/
def upW1 : Upstream :=
  { videosList := fun _ => { status := 404, bodyText := "category not found", items := none }
    search := fun r =>
      if r.regionCode = none then
        { status := 200, bodyText := "", items := some (List.replicate r.maxResults (some "v")) }
      else { status := 200, bodyText := "", items := some [] }
    videosById := fun r =>
      { status := 200, bodyText := ""
        items := some (r.ids.map (fun i => VideoItem.mk i none none ⟨none, none, none⟩)) }
    channels := fun _ => { status := 200, items := some [] } }

/-- Witness for C1: on the concrete oracle the collected fallback
identifiers stay within the page size. -/
theorem fallback_procedure_spec_witness :
    (fallbackIds upW1 "KR" "25").length ≤ MAX_RESULTS :=
  (fallback_procedure_spec "k" "KR" "25" "views" "include" upW1 (by decide) (by decide) rfl rfl
    (fun r => by
      by_cases hr : r.regionCode = none <;>
        simp [upW1, hr])).2.2.2.1

/-- C6: when the fallback runs and both searches succeed with zero
identifiers, the request completes successfully with an empty item list
(no hydration call, no channels call), and the response body echoes the
requested region, category, sort and shorts parameters. -/
theorem empty_fallback_success_spec (key region category sortKey shorts : String) (up : Upstream)
    (hkey : key ≠ "") (hcat : category ≠ "all")
    (h404 : (up.videosList (primaryReqOf region category)).status = 404)
    (hok1 : isOk (up.search (searchReqOf category region true)).status = true)
    (hids1 : extractIds (up.search (searchReqOf category region true)).items = [])
    (hok2 : isOk (up.search (searchReqOf category region false)).status = true)
    (hids2 : extractIds (up.search (searchReqOf category region false)).items = []) :
    GETvideos (some key) up ⟨some region, some category, some sortKey, some shorts⟩ =
      (VResult.success
        { items := [], region := region, category := category, sort := sortKey, shorts := shorts },
       [ReqEvent.primary (primaryReqOf region category),
        ReqEvent.search (searchReqOf category region true),
        ReqEvent.search (searchReqOf category region false)]) := by
  have hids : fallbackIds up region category = [] := by
    simp only [fallbackIds, hids1, List.isEmpty_nil, if_true, hok2, hids2]
  have hres := resolveWorkingSet_fallback h404 hcat hok1
  rw [hids, show fetchByIds up ([] : List String) = ([], []) from rfl, hids1] at hres
  simp only [List.isEmpty_nil, if_true, List.append_nil] at hres
  rw [GETvideos_ok_unfold hkey hres]
  simp [rankAndFilter_nil, show enrichChannels up [] = ([], []) from rfl]

/-- Upstream oracle for the C6 witness: primary 404 and both search
attempts succeeding with an empty item list. -/
def upW6 : Upstream :=
  { videosList := fun _ => { status := 404, bodyText := "not found", items := none }
    search := fun _ => { status := 200, bodyText := "", items := some [] }
    videosById := fun _ => { status := 200, bodyText := "", items := some [] }
    channels := fun _ => { status := 200, items := some [] } }

/-- Witness for C6 on the concrete oracle. -/
theorem empty_fallback_success_spec_witness :
    GETvideos (some "k") upW6 ⟨some "KR", some "10", some "views", some "include"⟩ =
      (VResult.success
        { items := [], region := "KR", category := "10", sort := "views", shorts := "include" },
       [ReqEvent.primary (primaryReqOf "KR" "10"),
        ReqEvent.search (searchReqOf "10" "KR" true),
        ReqEvent.search (searchReqOf "10" "KR" false)]) :=
  empty_fallback_success_spec "k" "KR" "10" "views" "include" upW6
    (by decide) (by decide) rfl rfl rfl rfl rfl

/-- `fetchByIds` on a non-empty identifier list whose hydration call fails
yields no items and records the one hydration request. -/
theorem fetchByIds_fail {up : Upstream} {ids : List String} (hne : ids ≠ [])
    (hnok : isOk (up.videosById
        { part := "snippet,statistics,contentDetails", ids := ids,
          maxResults := MAX_RESULTS }).status = false) :
    fetchByIds up ids =
      ([], [ReqEvent.byIds
        { part := "snippet,statistics,contentDetails", ids := ids,
          maxResults := MAX_RESULTS }]) := by
  cases ids with
  | nil => exact absurd rfl hne
  | cons x xs =>
    rw [fetchByIds]
    rw [if_neg (by simp)]
    simp only [hnok, Bool.false_eq_true, if_false]

/-- C10: inside the fallback, a failing second (region-free) search and a
failing hydration call are both swallowed: the endpoint still answers with
a successful response carrying an empty item list. -/
theorem swallowed_fallback_failure_spec (key region category sortKey shorts : String)
    (up : Upstream)
    (hkey : key ≠ "") (hcat : category ≠ "all")
    (h404 : (up.videosList (primaryReqOf region category)).status = 404)
    (hok1 : isOk (up.search (searchReqOf category region true)).status = true) :
    (extractIds (up.search (searchReqOf category region true)).items = [] →
      isOk (up.search (searchReqOf category region false)).status = false →
      (GETvideos (some key) up ⟨some region, some category, some sortKey, some shorts⟩).1 =
        VResult.success
          { items := [], region := region, category := category, sort := sortKey,
            shorts := shorts }) ∧
    (extractIds (up.search (searchReqOf category region true)).items ≠ [] →
      isOk (up.videosById
        { part := "snippet,statistics,contentDetails",
          ids := extractIds (up.search (searchReqOf category region true)).items,
          maxResults := MAX_RESULTS }).status = false →
      (GETvideos (some key) up ⟨some region, some category, some sortKey, some shorts⟩).1 =
        VResult.success
          { items := [], region := region, category := category, sort := sortKey,
            shorts := shorts }) := by
  constructor
  · intro hids1 hnok2
    have hids : fallbackIds up region category = [] := by
      simp only [fallbackIds, hids1, List.isEmpty_nil, if_true, hnok2, Bool.false_eq_true,
        if_false]
    have hres := resolveWorkingSet_fallback h404 hcat hok1
    rw [hids, show fetchByIds up ([] : List String) = ([], []) from rfl] at hres
    rw [GETvideos_ok_unfold hkey hres]
    simp [rankAndFilter_nil, show enrichChannels up [] = ([], []) from rfl]
  · intro hne hnokh
    have hids : fallbackIds up region category =
        extractIds (up.search (searchReqOf category region true)).items := by
      rw [fallbackIds]
      rw [if_neg (by simpa using hne)]
    have hres := resolveWorkingSet_fallback h404 hcat hok1
    rw [hids, fetchByIds_fail hne hnokh] at hres
    rw [GETvideos_ok_unfold hkey hres]
    simp [rankAndFilter_nil, show enrichChannels up [] = ([], []) from rfl]

/-- Upstream oracle for the C10 witness: primary 404, a region-scoped
search yielding one identifier, and a failing hydration call. -/
def upW10 : Upstream :=
  { videosList := fun _ => { status := 404, bodyText := "not found", items := none }
    search := fun _ => { status := 200, bodyText := "", items := some [some "x1"] }
    videosById := fun _ => { status := 500, bodyText := "backend exploded", items := none }
    channels := fun _ => { status := 200, items := some [] } }

/-- Witness for C10: a failing hydration call still yields a successful
empty response on the concrete oracle. -/
theorem swallowed_fallback_failure_spec_witness :
    (GETvideos (some "k") upW10 ⟨some "KR", some "10", some "views", some "include"⟩).1 =
      VResult.success
        { items := [], region := "KR", category := "10", sort := "views",
          shorts := "include" } :=
  (swallowed_fallback_failure_spec "k" "KR" "10" "views" "include" upW10
    (by decide) (by decide) rfl rfl).2 (by decide) rfl

/-- C7: the enricher collects the distinct non-empty channel identifiers
of the working set, issues the single batched lookup only when that set is
non-empty, prefers the medium thumbnail URL over the default one, and on a
failed lookup leaves the mapping empty so that every response record
carries an empty channel thumbnail while the request still succeeds. -/
theorem channel_enrichment_spec (up : Upstream) (items : List VideoItem)
    (key region category sortKey shorts : String) :
    (channelIdsOf items).Nodup ∧
    (∀ c : String, c ∈ channelIdsOf items ↔
        (∃ it ∈ items, it.snippet.bind (fun s => s.channelId) = some c) ∧ c ≠ "") ∧
    (channelIdsOf items = [] → enrichChannels up items = ([], [])) ∧
    (channelIdsOf items ≠ [] →
        (enrichChannels up items).2 =
          [ReqEvent.channels
            { part := "snippet", ids := channelIdsOf items, maxResults := 50 }]) ∧
    (∀ (ch : ChannelItem) (cid m : String), ch.id = some cid → cid ≠ "" →
        ch.mediumUrl = some m → m ≠ "" → mapLookup (buildThumbMap [ch]) cid = m) ∧
    (∀ (ch : ChannelItem) (cid : String), ch.id = some cid → cid ≠ "" →
        (ch.mediumUrl = none ∨ ch.mediumUrl = some "") →
        mapLookup (buildThumbMap [ch]) cid = ch.defaultUrl.getD "") ∧
    ((∀ r : ChannelsReq, isOk (up.channels r).status = false) →
        (enrichChannels up items).1 = []) ∧
    ((∀ r : ChannelsReq, isOk (up.channels r).status = false) → key ≠ "" →
        isOk (up.videosList (primaryReqOf region category)).status = true →
        (GETvideos (some key) up ⟨some region, some category, some sortKey, some shorts⟩).1 =
          VResult.success
            { items := (rankAndFilter sortKey shorts
                  ((up.videosList (primaryReqOf region category)).items.getD [])).map
                (toOutItem [])
              region := region, category := category, sort := sortKey, shorts := shorts } ∧
        ∀ o ∈ (rankAndFilter sortKey shorts
              ((up.videosList (primaryReqOf region category)).items.getD [])).map
            (toOutItem ([] : List (String × String))),
          o.channelThumbnail = "") := by
  refine ⟨nodup_dedupFirst _, fun c => mem_channelIdsOf, ?_, ?_, ?_, ?_,
    fun hch => enrichChannels_fail hch, ?_⟩
  · intro h
    rw [enrichChannels, if_pos (by rw [h]; rfl)]
  · intro h
    rw [enrichChannels, if_neg (by simpa using h)]
  · intro ch cid m hid hcid hmed hm
    simp [buildThumbMap, hid, hcid, chThumbVal, hmed, hm, mapLookup]
  · intro ch cid hid hcid hmed
    rcases hmed with hmed | hmed
    · by_cases hd : ch.defaultUrl.getD "" = "" <;>
        simp [buildThumbMap, hid, hcid, chThumbVal, hmed, hd, mapLookup]
    · by_cases hd : ch.defaultUrl.getD "" = "" <;>
        simp [buildThumbMap, hid, hcid, chThumbVal, hmed, hd, mapLookup]
  · intro hch hkey hok
    have hres := resolveWorkingSet_primary_ok hok
    have hg := @GETvideos_ok_unfold key up region category sortKey shorts _ _ hkey hres
    constructor
    · rw [congrArg Prod.fst hg]
      rw [enrichChannels_fail hch]
    · intro o ho
      rcases List.mem_map.mp ho with ⟨it, _, rfl⟩
      exact toOutItem_emptyMap_thumbnail it

/-- Witness for C7: medium-over-default preference at a concrete channel
item. -/
theorem channel_enrichment_spec_witness :
    mapLookup (buildThumbMap [ChannelItem.mk (some "c1") (some "m.jpg") (some "d.jpg")]) "c1" =
      "m.jpg" :=
  (channel_enrichment_spec upW2 [] "k" "KR" "all" "views" "include").2.2.2.2.1
    (ChannelItem.mk (some "c1") (some "m.jpg") (some "d.jpg")) "c1" "m.jpg"
    rfl (by decide) rfl (by decide)

end TopTube
